import Mathlib

/-!
# border-controller: a shallow embedding of `border-controller.go`

The Go program is one sequential loop over side effects (HTTP, DNS, the template
file, the live nginx configuration file, process control).  The embedding passes
an explicit `State` (live file content, the global `mainloop` flag, whether the
process is still alive, and the trace of external actions performed so far) and
reads every answer of the outside world from an `Env` record.

Go strings and byte slices are sequences of bytes (`List Nat`); the order on
them is the bytewise lexicographic order that Go's `<` on strings implements.
-/

namespace BorderController

/-! ## Strings and bytes -/

/-- A Go `string` (also used for `[]byte`): an immutable sequence of bytes. -/
abbrev GoString := List Nat

/-- The byte sequence (UTF-8) of a string literal of the source. -/
def lit (s : String) : GoString :=
  (s.data.flatMap String.utf8EncodeChar).map UInt8.toNat

/-- Library `sort.Strings`: sorts increasingly for Go's `<` on strings, which is the
bytewise lexicographic order.  The order is total and antisymmetric, so the sorted
result is determined by the input multiset whatever algorithm is used
(see `sortStrings_unique`); an insertion sort is used here. -/
def sortStrings (be : List GoString) : List GoString :=
  be.insertionSort (fun a b => a ≤ b)

/-- Library `strings.Split(s, sep)` for a separator `sep` of one byte: the pieces of `s`
between the occurrences of `sep` (always at least one piece). -/
def stringsSplit : GoString → Nat → List GoString
  | [], _ => [[]]
  | c :: cs, sep =>
    if c = sep then [] :: stringsSplit cs sep
    else
      match stringsSplit cs sep with
      | [] => [[c]]
      | piece :: pieces => (c :: piece) :: pieces

/-- Library `strconv.Itoa` (on a platform where `int` has 64 bits, so that
`int(m.Acode)` is the identity on `int64`). -/
def itoa (n : Int) : GoString := lit (toString n)

/-! ## MD5 (library `crypto/md5`, RFC 1321) and `fmt.Sprintf("%x", ...)` -/

/-- The sine table of RFC 1321. -/
def md5K : List Nat := [
  0xd76aa478, 0xe8c7b756, 0x242070db, 0xc1bdceee,
  0xf57c0faf, 0x4787c62a, 0xa8304613, 0xfd469501,
  0x698098d8, 0x8b44f7af, 0xffff5bb1, 0x895cd7be,
  0x6b901122, 0xfd987193, 0xa679438e, 0x49b40821,
  0xf61e2562, 0xc040b340, 0x265e5a51, 0xe9b6c7aa,
  0xd62f105d, 0x02441453, 0xd8a1e681, 0xe7d3fbc8,
  0x21e1cde6, 0xc33707d6, 0xf4d50d87, 0x455a14ed,
  0xa9e3e905, 0xfcefa3f8, 0x676f02d9, 0x8d2a4c8a,
  0xfffa3942, 0x8771f681, 0x6d9d6122, 0xfde5380c,
  0xa4beea44, 0x4bdecfa9, 0xf6bb4b60, 0xbebfbc70,
  0x289b7ec6, 0xeaa127fa, 0xd4ef3085, 0x04881d05,
  0xd9d4d039, 0xe6db99e5, 0x1fa27cf8, 0xc4ac5665,
  0xf4292244, 0x432aff97, 0xab9423a7, 0xfc93a039,
  0x655b59c3, 0x8f0ccc92, 0xffeff47d, 0x85845dd1,
  0x6fa87e4f, 0xfe2ce6e0, 0xa3014314, 0x4e0811a1,
  0xf7537e82, 0xbd3af235, 0x2ad7d2bb, 0xeb86d391]

/-- The per-step rotation amounts of RFC 1321. -/
def md5S : List Nat := [
  7, 12, 17, 22, 7, 12, 17, 22, 7, 12, 17, 22, 7, 12, 17, 22,
  5, 9, 14, 20, 5, 9, 14, 20, 5, 9, 14, 20, 5, 9, 14, 20,
  4, 11, 16, 23, 4, 11, 16, 23, 4, 11, 16, 23, 4, 11, 16, 23,
  6, 10, 15, 21, 6, 10, 15, 21, 6, 10, 15, 21, 6, 10, 15, 21]

/-- Rotate a 32-bit word left by `s` bits. -/
def rotl32 (x s : Nat) : Nat := ((x <<< s) ||| (x >>> (32 - s))) % 2 ^ 32

/-- Bitwise complement of a 32-bit word. -/
def not32 (x : Nat) : Nat := x ^^^ 0xffffffff

/-- The four 32-bit chaining words of MD5. -/
structure Md5State where
  a : Nat
  b : Nat
  c : Nat
  d : Nat
deriving DecidableEq, Repr

/-- One of the 64 steps of the MD5 compression function on the message words `m`. -/
def md5Step (m : List Nat) (st : Md5State) (i : Nat) : Md5State :=
  let f :=
    if i < 16 then (st.b &&& st.c) ||| (not32 st.b &&& st.d)
    else if i < 32 then (st.d &&& st.b) ||| (not32 st.d &&& st.c)
    else if i < 48 then st.b ^^^ st.c ^^^ st.d
    else st.c ^^^ (st.b ||| not32 st.d)
  let g :=
    if i < 16 then i
    else if i < 32 then (5 * i + 1) % 16
    else if i < 48 then (3 * i + 5) % 16
    else (7 * i) % 16
  let x := (f + st.a + md5K.getD i 0 + m.getD g 0) % 2 ^ 32
  { a := st.d, b := (st.b + rotl32 x (md5S.getD i 0)) % 2 ^ 32, c := st.b, d := st.c }

/-- A little-endian 32-bit word from the first four bytes. -/
def leWord : GoString → Nat
  | b0 :: b1 :: b2 :: b3 :: _ => b0 + 256 * b1 + 65536 * b2 + 16777216 * b3
  | _ => 0

/-- The first `n` little-endian words of a byte sequence. -/
def leWords : Nat → GoString → List Nat
  | 0, _ => []
  | n + 1, bs => leWord bs :: leWords n (bs.drop 4)

/-- The MD5 compression function on one 64-byte block. -/
def md5Block (st : Md5State) (block : GoString) : Md5State :=
  let m := leWords 16 block
  let r := (List.range 64).foldl (md5Step m) st
  { a := (st.a + r.a) % 2 ^ 32, b := (st.b + r.b) % 2 ^ 32,
    c := (st.c + r.c) % 2 ^ 32, d := (st.d + r.d) % 2 ^ 32 }

/-- The `n` low bytes of `x`, least significant first. -/
def leBytes : Nat → Nat → GoString
  | 0, _ => []
  | n + 1, x => x % 256 :: leBytes n (x / 256)

/-- MD5 padding: a `0x80` byte, zeros up to 56 modulo 64, the bit length on 8 bytes. -/
def md5Pad (msg : GoString) : GoString :=
  msg ++ 0x80 :: List.replicate ((119 - msg.length % 64) % 64) 0
    ++ leBytes 8 ((8 * msg.length) % 2 ^ 64)

/-- Run the compression function over `n` consecutive 64-byte blocks. -/
def md5Blocks : Nat → Md5State → GoString → Md5State
  | 0, st, _ => st
  | n + 1, st, bs => md5Blocks n (md5Block st (bs.take 64)) (bs.drop 64)

/-- Library `md5.Sum`: the 16-byte MD5 digest. -/
def md5Sum (msg : GoString) : GoString :=
  let p := md5Pad msg
  let r := md5Blocks (p.length / 64)
    { a := 0x67452301, b := 0xefcdab89, c := 0x98badcfe, d := 0x10325476 } p
  leBytes 4 r.a ++ leBytes 4 r.b ++ leBytes 4 r.c ++ leBytes 4 r.d

/-- One lowercase hexadecimal digit. -/
def hexDigit (n : Nat) : Nat := if n < 10 then 48 + n else 87 + n

/-- Library `fmt.Sprintf("%x", bs)` on a byte array: two lowercase hex digits per byte. -/
def hexString (bs : GoString) : GoString :=
  bs.flatMap fun b => [hexDigit (b / 16 % 16), hexDigit (b % 16)]

/-- The fingerprint `fmt.Sprintf("%x", md5.Sum(bs))` that `writeconfig` compares. -/
def fingerprint (bs : GoString) : GoString := hexString (md5Sum bs)

/-! ## Data model -/

/-- The JSON envelope of the controller (`type Message`). -/
structure Message where
  Acode : Int
  Astring : GoString
  Aslice : List GoString
deriving DecidableEq, Repr

/-- One record handed to the template (`type Backend`). -/
structure Backend where
  Node : GoString
  Port : GoString
deriving DecidableEq, Repr

/-- Modelled from the spec: the configuration type `T` and `ReadConfigfile` are declared
outside `border-controller.go`; these are the fields of `config.General.Swarm` (with
`Docker_controller.Exposed_port` and `Docker_controller.Api_key` flattened) that the
source reads. -/
structure Config where
  Docker_hosts : List GoString
  Docker_host_dns_domain : GoString
  Exposed_port : GoString
  Api_key : GoString
  Ingress_service_name : GoString
  Stack_service_task_dns_name : GoString
  Stack_service_port : GoString
deriving DecidableEq, Repr

/-- The external actions of the program, in the order they are performed. -/
inductive Event where
  | getstackerviceinfo
  | httpGet (url : GoString)
  | getstacktaskdns
  | lookupHost (name : GoString)
  | parseTemplate
  | executeTemplate (data : List Backend)
  | readConf
  | writeConf (content : GoString)
  | isprocessrunningps (processname : GoString)
  | startprocess
  | reloadprocess
  | sleep (seconds : Nat)
deriving DecidableEq, Repr

/-- Whether the process is still executing, has panicked (`log.Panic`, index out of
range) or has exited (`log.Fatal` calls `os.Exit(1)`; `main` returning ends the process
with status 0). -/
inductive Status where
  | running
  | panicked
  | exited (code : Nat)
deriving DecidableEq, Repr

/-- The state threaded through the program. `conf` is the content of
`/etc/nginx/nginx.conf` as `ioutil.ReadFile` returns it (`none` when the file is missing
or cannot be read, in which case `exconf` is empty), `mainloop` the global flag. -/
structure State where
  conf : Option GoString
  mainloop : Bool
  status : Status
  trace : List Event
deriving DecidableEq, Repr

/-- What is read from the body of an HTTP response by `ioutil.ReadAll` and
`json.Unmarshal`: a read error, bytes that are not a JSON `Message`, or the decoded
envelope. -/
inductive HttpBody where
  | unreadable
  | malformed
  | envelope (m : Message)
deriving DecidableEq, Repr

/-- An HTTP response: status code and body. -/
structure HttpResponse where
  status : Nat
  body : HttpBody
deriving DecidableEq, Repr

/-- Result of `ioutil.WriteFile` on the live configuration file: success (the file
holds exactly the bytes written), or an error that leaves the file as `left`. -/
inductive WriteResult where
  | ok
  | failed (left : Option GoString)
deriving DecidableEq, Repr

/-- Result of running `nginx -s reload`: `cmd.Start()` fails, or the command is
launched and `cmd.Wait()` reports success or a failing exit. -/
inductive ReloadResult where
  | launchFailed
  | exitedOk
  | exitedFailing
deriving DecidableEq, Repr

deriving instance DecidableEq for Except

/-- The answers of the outside world during one tick. -/
structure Env where
  /-- Answer of `http.Get url`: `none` is a transport error. -/
  httpGet : GoString → Option HttpResponse
  /-- Answer of `net.LookupHost name`. -/
  lookupHost : GoString → Except GoString (List GoString)
  /-- Answer of `template.ParseFiles`: `none` is a parse error; otherwise the function
  `t.Execute` computes, `none` being an execution error. -/
  template : Option (List Backend → Option GoString)
  /-- Answer of `ioutil.WriteFile` for the given content. -/
  writeFile : GoString → WriteResult
  /-- Whether `/proc` shows a process whose name matches. -/
  procRunning : GoString → Bool
  /-- Whether `cmd.Start()` of `nginx -g "daemon off;"` fails. -/
  startFails : Bool
  /-- Outcome of `nginx -s reload`. -/
  reload : ReloadResult

/-- Append an action to the trace. -/
def State.emit (s : State) (e : Event) : State :=
  { s with trace := s.trace ++ [e] }

/-! ## The functions of `border-controller.go` -/

/-- Function `isprocessrunningps`: the scan of `/proc` is an answer of the environment. -/
def isprocessrunningps (env : Env) (processname : GoString) (s : State) : Bool × State :=
  (env.procRunning processname, s.emit (.isprocessrunningps processname))

/-- Function `startprocess`: `cmd.Start()`; on error `log.Fatal` exits the process with
status 1 (the assignment `mainloop = false` after it is never reached). -/
def startprocess (env : Env) (s : State) : State :=
  let s1 := s.emit .startprocess
  if env.startFails then { s1 with status := .exited 1 } else s1

/-- Function `reloadprocess`: `cmd.Start()`, on error `log.Fatal` exits the process with
status 1; otherwise `cmd.Wait()`, whose result is discarded. -/
def reloadprocess (env : Env) (s : State) : State :=
  let s1 := s.emit .reloadprocess
  match env.reload with
  | .launchFailed => { s1 with status := .exited 1 }
  | .exitedOk => s1
  | .exitedFailing => s1

/-- Function `writeconfig`. -/
def writeconfig (env : Env) (data : List Backend) (s : State) : Bool × State :=
  let s1 := s.emit .parseTemplate
  match env.template with
  | none => (false, s1)
  | some t =>
    let s2 := s1.emit (.executeTemplate data)
    match t data with
    | none => (false, s2)
    | some tpl =>
      let md5tpl := fingerprint tpl
      let s3 := s2.emit .readConf
      let exconf := s.conf.getD []
      let md5exconf := fingerprint exconf
      if md5tpl = md5exconf then (false, s3)
      else
        let s4 := s3.emit (.writeConf tpl)
        match env.writeFile tpl with
        | .ok => (true, { s4 with conf := some tpl })
        | .failed left => (true, { s4 with conf := left, mainloop := false })

/-- The `for _, e := range be` loop of `checkconfig`, `data` being the slice built so
far; `none` is the index-out-of-range panic of `et[1]`. -/
def checkconfigLoop (domain : GoString) : List GoString → List Backend → Option (List Backend)
  | [], data => some data
  | e :: rest, data =>
    let et := stringsSplit e 32
    match et[0]?, et[1]? with
    | some et0, some et1 =>
      checkconfigLoop domain rest (data ++ [{ Node := et0 ++ lit "." ++ domain, Port := et1 }])
    | _, _ => none

/-- Function `checkconfig`; the first component is `none` when the function panics. -/
def checkconfig (env : Env) (be : List GoString) (domain : GoString) (s : State) :
    Option Bool × State :=
  match checkconfigLoop domain (sortStrings be) [] with
  | none => (none, { s with status := .panicked })
  | some data => ((writeconfig env data s).1, (writeconfig env data s).2)

/-- The `for _, e := range be` loop of `checkconfigdns`. -/
def checkconfigdnsLoop (port : GoString) : List GoString → List Backend → List Backend
  | [], data => data
  | e :: rest, data => checkconfigdnsLoop port rest (data ++ [{ Node := e, Port := port }])

/-- Function `checkconfigdns`. -/
def checkconfigdns (env : Env) (be : List GoString) (port : GoString) (s : State) :
    Bool × State :=
  writeconfig env (checkconfigdnsLoop port (sortStrings be) []) s

/-- The URL `getstackerviceinfo` requests from docker host `dh`. -/
def inspectUrl (config : Config) (dh : GoString) : GoString :=
  lit "http://" ++ dh ++ lit "." ++ config.Docker_host_dns_domain ++ lit ":" ++
    config.Exposed_port ++ lit "/service/inspect/" ++ config.Ingress_service_name ++
    lit "?api_key=" ++ config.Api_key

/-- The `for _, dh := range config.General.Swarm.Docker_hosts` loop of
`getstackerviceinfo` and the `return` after it. -/
def getstackerviceinfoLoop (config : Config) (env : Env) :
    List GoString → State → Except GoString (List GoString) × State
  | [], s => (.error (lit "Cannot reach any docker host"), s)
  | dh :: rest, s =>
    let s1 := s.emit (.httpGet (inspectUrl config dh))
    match env.httpGet (inspectUrl config dh) with
    | none => getstackerviceinfoLoop config env rest s1
    | some resp =>
      if resp.status = 200 then
        match resp.body with
        | .unreadable => (.error (lit "Error reading response body"), s1)
        | .malformed => (.error (lit "Error reading during unmarshal of response body."), s1)
        | .envelope m =>
          if m.Acode ≥ 500 then (.error (itoa m.Acode ++ lit " " ++ m.Astring), s1)
          else (.ok m.Aslice, s1)
      else (.ok [], s1)

/-- Function `getstackerviceinfo`. -/
def getstackerviceinfo (config : Config) (env : Env) (s : State) :
    Except GoString (List GoString) × State :=
  getstackerviceinfoLoop config env config.Docker_hosts (s.emit .getstackerviceinfo)

/-- Function `getstacktaskdns`; the first component is `none` when `log.Panic` fires. -/
def getstacktaskdns (config : Config) (env : Env) (s : State) :
    Option (Except GoString (List GoString)) × State :=
  let s1 := s.emit .getstacktaskdns
  if config.Stack_service_port = [] then (none, { s1 with status := .panicked })
  else
    let s2 := s1.emit (.lookupHost config.Stack_service_task_dns_name)
    match env.lookupHost config.Stack_service_task_dns_name with
    | .error err => (some (.error err), s2)
    | .ok servicerecords => (some (.ok servicerecords), s2)

/-- Lines 305 to 315 of `main`: the supervisor decision on `changed`. -/
def supervise (env : Env) (changed : Bool) (s : State) : State :=
  if changed = true then
    if (isprocessrunningps env (lit "nginx") s).1 then
      reloadprocess env (isprocessrunningps env (lit "nginx") s).2
    else
      startprocess env (isprocessrunningps env (lit "nginx") s).2
  else
    if !(isprocessrunningps env (lit "nginx") s).1 then
      startprocess env (isprocessrunningps env (lit "nginx") s).2
    else (isprocessrunningps env (lit "nginx") s).2

/-- The end of the loop body of `main`: the supervisor decision, then
`time.Sleep(10 * time.Second)` unless the process has exited. -/
def superviseAndSleep (env : Env) (changed : Bool) (s : State) : State :=
  if (supervise env changed s).status = .running then (supervise env changed s).emit (.sleep 10)
  else supervise env changed s

/-- One iteration of the `for mainloop == true` loop of `main`. -/
def tick (config : Config) (env : Env) (s : State) : State :=
  if config.Stack_service_task_dns_name ≠ [] ∧ config.Ingress_service_name ≠ [] then
    { s with status := .panicked }
  else if config.Ingress_service_name ≠ [] then
    match getstackerviceinfo config env s with
    | (.error _, s1) => s1.emit (.sleep 5)
    | (.ok backends, s1) =>
      match checkconfig env backends config.Docker_host_dns_domain s1 with
      | (none, s2) => s2
      | (some changed, s2) => superviseAndSleep env changed s2
  else if config.Stack_service_task_dns_name ≠ [] then
    match getstacktaskdns config env s with
    | (none, s1) => s1
    | (some (.error _), s1) => s1.emit (.sleep 5)
    | (some (.ok backends), s1) =>
      superviseAndSleep env (checkconfigdns env backends config.Stack_service_port s1).1
        (checkconfigdns env backends config.Stack_service_port s1).2
  else { s with status := .panicked }

/-- The loop `for mainloop == true` of `main`, for at most `fuel` iterations; `envs n`
is the environment of the `n`-th iteration from here. When the loop test finds the run
flag cleared, `main` returns and the process ends with exit status 0. A process that has
panicked or exited runs nothing further. -/
def mainLoop (config : Config) : Nat → (Nat → Env) → State → State
  | 0, _, s => s
  | fuel + 1, envs, s =>
    if s.status = .running then
      if s.mainloop = true then
        mainLoop config fuel (fun n => envs (n + 1)) (tick config (envs 0) s)
      else { s with status := .exited 0 }
    else s

/-- Function `main`: `readConfigfile` is the result of `ReadConfigfile()` (`none` when it
reports failure), `conf0` the initial content of the live configuration file. -/
def main (readConfigfile : Option Config) (conf0 : Option GoString) (fuel : Nat)
    (envs : Nat → Env) : State :=
  match readConfigfile with
  | none => { conf := conf0, mainloop := false, status := .panicked, trace := [] }
  | some config =>
    mainLoop config fuel envs { conf := conf0, mainloop := true, status := .running, trace := [] }

/-! ## Observations on states and traces -/

/-- The bytes `writeconfig` renders from `data` (`tpl.String()`): `none` when
`template.ParseFiles` or `t.Execute` reports an error. -/
def rendered (env : Env) (data : List Backend) : Option GoString :=
  env.template.bind fun t => t data

/-- The contents written to the live configuration file in a trace, in order. -/
def writes (tr : List Event) : List GoString :=
  tr.filterMap fun e =>
    match e with
    | .writeConf content => some content
    | _ => none

/-- The actions of the API discovery: the call of `getstackerviceinfo` and its requests. -/
def Event.isApi : Event → Bool
  | .getstackerviceinfo => true
  | .httpGet _ => true
  | _ => false

/-- The actions of the DNS discovery: the call of `getstacktaskdns` and its lookup. -/
def Event.isDns : Event → Bool
  | .getstacktaskdns => true
  | .lookupHost _ => true
  | _ => false

/-- The actions of discovery, of either strategy. -/
def Event.isDiscovery (e : Event) : Bool := e.isApi || e.isDns

/-- The actions that are neither discovery calls nor network requests: template, live
file, process control and sleeping. -/
def Event.isLocal : Event → Bool
  | .parseTemplate => true
  | .executeTemplate _ => true
  | .readConf => true
  | .writeConf _ => true
  | .isprocessrunningps _ => true
  | .startprocess => true
  | .reloadprocess => true
  | .sleep _ => true
  | _ => false

/-- The requests `http.Get` of the API discovery. -/
def Event.isHttpGet : Event → Bool
  | .httpGet _ => true
  | _ => false

/-- State `t` is reached from `s` by performing actions that all satisfy `p`, without
touching the live file, the run flag or the process status. -/
def Performs (p : Event → Bool) (s t : State) : Prop :=
  t.conf = s.conf ∧ t.mainloop = s.mainloop ∧ t.status = s.status ∧
    ∃ evs : List Event, t.trace = s.trace ++ evs ∧ ∀ e ∈ evs, p e = true

/-- The trace of `t` extends the trace of `s` by actions that all satisfy `p`. -/
def Extends (p : Event → Bool) (s t : State) : Prop :=
  ∃ evs : List Event, t.trace = s.trace ++ evs ∧ ∀ e ∈ evs, p e = true

/-! ## Sample data used in the concrete evaluations -/

/-- An environment in which nothing answers: no controller, no name resolution, no
template; writes succeed and no nginx process is running. -/
def quietEnv : Env where
  httpGet := fun _ => none
  lookupHost := fun _ => .error []
  template := none
  writeFile := fun _ => .ok
  procRunning := fun _ => false
  startFails := false
  reload := .exitedOk

/-- The state at the first test of `mainloop == true`, with live file content `conf0`. -/
def startState (conf0 : Option GoString) : State :=
  { conf := conf0, mainloop := true, status := .running, trace := [] }

/-- A configuration in API mode with one docker host. -/
def apiConfig : Config where
  Docker_hosts := [lit "manager1"]
  Docker_host_dns_domain := lit "svc.local"
  Exposed_port := lit "8080"
  Api_key := lit "secret"
  Ingress_service_name := lit "ingress"
  Stack_service_task_dns_name := []
  Stack_service_port := []

/-- A configuration with both discovery strategies set. -/
def bothConfig : Config :=
  { apiConfig with Stack_service_task_dns_name := lit "tasks.web", Stack_service_port := lit "9090" }

/-- A configuration with no discovery strategy set. -/
def neitherConfig : Config :=
  { apiConfig with Ingress_service_name := [] }

/-- A configuration in DNS mode. -/
def dnsConfig : Config where
  Docker_hosts := []
  Docker_host_dns_domain := []
  Exposed_port := []
  Api_key := []
  Ingress_service_name := []
  Stack_service_task_dns_name := lit "tasks.web"
  Stack_service_port := lit "9090"

/-- First message of the MD5 collision published by Wang and Yu (2004). -/
def collisionA : GoString := [
  0xd1, 0x31, 0xdd, 0x02, 0xc5, 0xe6, 0xee, 0xc4, 0x69, 0x3d, 0x9a, 0x06, 0x98, 0xaf, 0xf9, 0x5c,
  0x2f, 0xca, 0xb5, 0x87, 0x12, 0x46, 0x7e, 0xab, 0x40, 0x04, 0x58, 0x3e, 0xb8, 0xfb, 0x7f, 0x89,
  0x55, 0xad, 0x34, 0x06, 0x09, 0xf4, 0xb3, 0x02, 0x83, 0xe4, 0x88, 0x83, 0x25, 0x71, 0x41, 0x5a,
  0x08, 0x51, 0x25, 0xe8, 0xf7, 0xcd, 0xc9, 0x9f, 0xd9, 0x1d, 0xbd, 0xf2, 0x80, 0x37, 0x3c, 0x5b,
  0xd8, 0x82, 0x3e, 0x31, 0x56, 0x34, 0x8f, 0x5b, 0xae, 0x6d, 0xac, 0xd4, 0x36, 0xc9, 0x19, 0xc6,
  0xdd, 0x53, 0xe2, 0xb4, 0x87, 0xda, 0x03, 0xfd, 0x02, 0x39, 0x63, 0x06, 0xd2, 0x48, 0xcd, 0xa0,
  0xe9, 0x9f, 0x33, 0x42, 0x0f, 0x57, 0x7e, 0xe8, 0xce, 0x54, 0xb6, 0x70, 0x80, 0xa8, 0x0d, 0x1e,
  0xc6, 0x98, 0x21, 0xbc, 0xb6, 0xa8, 0x83, 0x93, 0x96, 0xf9, 0x65, 0x2b, 0x6f, 0xf7, 0x2a, 0x70]

/-- Second message of the same collision; it differs from the first in six bytes. -/
def collisionB : GoString := [
  0xd1, 0x31, 0xdd, 0x02, 0xc5, 0xe6, 0xee, 0xc4, 0x69, 0x3d, 0x9a, 0x06, 0x98, 0xaf, 0xf9, 0x5c,
  0x2f, 0xca, 0xb5, 0x07, 0x12, 0x46, 0x7e, 0xab, 0x40, 0x04, 0x58, 0x3e, 0xb8, 0xfb, 0x7f, 0x89,
  0x55, 0xad, 0x34, 0x06, 0x09, 0xf4, 0xb3, 0x02, 0x83, 0xe4, 0x88, 0x83, 0x25, 0xf1, 0x41, 0x5a,
  0x08, 0x51, 0x25, 0xe8, 0xf7, 0xcd, 0xc9, 0x9f, 0xd9, 0x1d, 0xbd, 0x72, 0x80, 0x37, 0x3c, 0x5b,
  0xd8, 0x82, 0x3e, 0x31, 0x56, 0x34, 0x8f, 0x5b, 0xae, 0x6d, 0xac, 0xd4, 0x36, 0xc9, 0x19, 0xc6,
  0xdd, 0x53, 0xe2, 0x34, 0x87, 0xda, 0x03, 0xfd, 0x02, 0x39, 0x63, 0x06, 0xd2, 0x48, 0xcd, 0xa0,
  0xe9, 0x9f, 0x33, 0x42, 0x0f, 0x57, 0x7e, 0xe8, 0xce, 0x54, 0xb6, 0x70, 0x80, 0x28, 0x0d, 0x1e,
  0xc6, 0x98, 0x21, 0xbc, 0xb6, 0xa8, 0x83, 0x93, 0x96, 0xf9, 0x65, 0xab, 0x6f, 0xf7, 0x2a, 0x70]

/-- An environment whose template renders the fixed bytes `out` for every record list. -/
def constTemplateEnv (out : GoString) : Env :=
  { quietEnv with template := some (fun _ => some out) }

/-- An environment in DNS mode in which the lookup answers one address, the template
renders `new`, nginx is running, and the reload command is launched but exits failing. -/
def reloadFailingEnv : Env :=
  { constTemplateEnv (lit "new") with
    lookupHost := fun _ => .ok [lit "10.0.0.1"]
    procRunning := fun _ => true
    reload := .exitedFailing }

/-- As `reloadFailingEnv`, but `ioutil.WriteFile` fails and leaves the live file as `old`. -/
def writeFailsReloadFailingEnv : Env :=
  { reloadFailingEnv with writeFile := fun _ => .failed (some (lit "old")) }

/-- The identifier `node ++ " " ++ port` that the spec gives for a (node, port) pair. -/
def specIdentifier (x : GoString × GoString) : GoString := x.1 ++ lit " " ++ x.2

/-- The record `{Node: node ++ "." ++ domain, Port: port}` that the spec gives for a
(node, port) pair. -/
def specRecord (domain : GoString) (x : GoString × GoString) : Backend :=
  { Node := x.1 ++ lit "." ++ domain, Port := x.2 }

/-- The record `{Node: address, Port: port}` that the spec gives for a resolved address. -/
def specRecordDns (port : GoString) (e : GoString) : Backend :=
  { Node := e, Port := port }

/-! ## Sorting and splitting -/

set_option maxRecDepth 100000

theorem sortStrings_sorted (be : List GoString) :
    (sortStrings be).Sorted (fun a b => a ≤ b) :=
  List.sorted_insertionSort (fun a b : GoString => a ≤ b) be

theorem sortStrings_perm (be : List GoString) : (sortStrings be).Perm be :=
  List.perm_insertionSort (fun a b : GoString => a ≤ b) be

/-- Any increasingly sorted rearrangement of `be` is `sortStrings be`: the result of
`sort.Strings` does not depend on the sorting algorithm. -/
theorem sortStrings_unique (be sorted : List GoString) (hp : sorted.Perm be)
    (hs : sorted.Sorted (fun a b => a ≤ b)) : sorted = sortStrings be :=
  List.eq_of_perm_of_sorted (hp.trans (sortStrings_perm be).symm) hs (sortStrings_sorted be)

theorem sortStrings_congr {be1 be2 : List GoString} (h : be1.Perm be2) :
    sortStrings be1 = sortStrings be2 :=
  sortStrings_unique be2 (sortStrings be1) ((sortStrings_perm be1).trans h)
    (sortStrings_sorted be1)

theorem stringsSplit_of_not_mem (p : GoString) (sep : Nat) (h : sep ∉ p) :
    stringsSplit p sep = [p] := by
  induction p with
  | nil => rfl
  | cons c cs ih =>
    have hc : c ≠ sep := fun e => h (by simp [e])
    have hcs : sep ∉ cs := fun m => h (List.mem_cons_of_mem _ m)
    simp [stringsSplit, hc, ih hcs]

theorem stringsSplit_pair (n p : GoString) (sep : Nat) (hn : sep ∉ n) (hp : sep ∉ p) :
    stringsSplit (n ++ sep :: p) sep = [n, p] := by
  induction n with
  | nil => simp [stringsSplit, stringsSplit_of_not_mem p sep hp]
  | cons c cs ih =>
    have hc : c ≠ sep := fun e => hn (by simp [e])
    have hcs : sep ∉ cs := fun m => hn (List.mem_cons_of_mem _ m)
    simp [stringsSplit, hc, ih hcs]

theorem checkconfigLoop_wellformed (domain : GoString) (ids : List (GoString × GoString))
    (data : List Backend) (hwf : ∀ x ∈ ids, 32 ∉ x.1 ∧ 32 ∉ x.2) :
    checkconfigLoop domain (ids.map fun x => x.1 ++ 32 :: x.2) data =
      some (data ++ ids.map fun x => { Node := x.1 ++ lit "." ++ domain, Port := x.2 }) := by
  induction ids generalizing data with
  | nil => simp [checkconfigLoop]
  | cons x xs ih =>
    have hx := hwf x (List.mem_cons_self _ _)
    have hxs : ∀ y ∈ xs, 32 ∉ y.1 ∧ 32 ∉ y.2 := fun y hy => hwf y (List.mem_cons_of_mem _ hy)
    simp [checkconfigLoop, stringsSplit_pair x.1 x.2 32 hx.1 hx.2, ih _ hxs]

theorem checkconfigdnsLoop_eq (port : GoString) (be : List GoString) (data : List Backend) :
    checkconfigdnsLoop port be data = data ++ be.map fun e => { Node := e, Port := port } := by
  induction be generalizing data with
  | nil => simp [checkconfigdnsLoop]
  | cons e es ih => simp [checkconfigdnsLoop, ih]

/-- The sorted raw identifiers of well-formed (node, port) pairs are the raw identifiers
of the pairs sorted by raw identifier. -/
theorem sortStrings_identifiers (ids : List (GoString × GoString)) :
    sortStrings (ids.map fun x => x.1 ++ 32 :: x.2) =
      (ids.insertionSort fun a b => a.1 ++ 32 :: a.2 ≤ b.1 ++ 32 :: b.2).map
        fun x => x.1 ++ 32 :: x.2 := by
  unfold sortStrings
  exact (List.map_insertionSort (fun a b : GoString × GoString => a.1 ++ 32 :: a.2 ≤ b.1 ++ 32 :: b.2)
    (fun a b : GoString => a ≤ b) (fun x : GoString × GoString => x.1 ++ 32 :: x.2) ids
    (fun _ _ _ _ => Iff.rfl)).symm

theorem specIdentifier_eq (x : GoString × GoString) : specIdentifier x = x.1 ++ 32 :: x.2 := by
  have h : lit " " = [32] := by decide
  simp [specIdentifier, h]

theorem checkconfigLoop_specIdentifier (domain : GoString) (ids : List (GoString × GoString))
    (hwf : ∀ x ∈ ids, 32 ∉ x.1 ∧ 32 ∉ x.2) :
    checkconfigLoop domain (sortStrings (ids.map specIdentifier)) [] =
      some ((ids.insertionSort fun a b => a.1 ++ 32 :: a.2 ≤ b.1 ++ 32 :: b.2).map
        (specRecord domain)) := by
  have hfun : specIdentifier = fun x => x.1 ++ 32 :: x.2 := funext specIdentifier_eq
  have hrec : specRecord domain = fun x => { Node := x.1 ++ lit "." ++ domain, Port := x.2 } :=
    rfl
  rw [hfun, sortStrings_identifiers, hrec, checkconfigLoop_wellformed domain _ []
    (fun x hx => hwf x ((List.mem_insertionSort _).1 hx))]
  simp

/-- C2: for identifiers of the form node ++ " " ++ port with no space in node and port,
`checkconfig` does not panic on `et[1]`, and the records it passes to `writeconfig` are
the sorted identifiers mapped to `{Node: node ++ "." ++ domain, Port: port}`: there is a
rearrangement `sorted` of the (node, port) pairs whose identifiers are `sort.Strings` of
the input, the loop builds `sorted` mapped to records, `checkconfig` is `writeconfig` on
that list, and the list is as long as the input (duplicates are kept). -/
theorem checkconfig_builds_sorted_records (ids : List (GoString × GoString))
    (domain : GoString) (env : Env) (s : State) (hwf : ∀ x ∈ ids, 32 ∉ x.1 ∧ 32 ∉ x.2) :
    ∃ sorted : List (GoString × GoString),
      sorted.Perm ids ∧
      sorted.map specIdentifier = sortStrings (ids.map specIdentifier) ∧
      (sorted.map specIdentifier).Sorted (fun a b => a ≤ b) ∧
      checkconfigLoop domain (sortStrings (ids.map specIdentifier)) [] =
        some (sorted.map (specRecord domain)) ∧
      checkconfig env (ids.map specIdentifier) domain s =
        (some (writeconfig env (sorted.map (specRecord domain)) s).1,
          (writeconfig env (sorted.map (specRecord domain)) s).2) ∧
      (sorted.map (specRecord domain)).length = (ids.map specIdentifier).length := by
  have hfun : specIdentifier = fun x => x.1 ++ 32 :: x.2 := funext specIdentifier_eq
  have hmap : (ids.insertionSort fun a b => a.1 ++ 32 :: a.2 ≤ b.1 ++ 32 :: b.2).map
      specIdentifier = sortStrings (ids.map specIdentifier) := by
    rw [hfun, sortStrings_identifiers]
  refine ⟨ids.insertionSort fun a b => a.1 ++ 32 :: a.2 ≤ b.1 ++ 32 :: b.2,
    List.perm_insertionSort _ ids, hmap, ?_, checkconfigLoop_specIdentifier domain ids hwf,
    ?_, ?_⟩
  · rw [hmap]
    exact sortStrings_sorted _
  · simp [checkconfig, checkconfigLoop_specIdentifier domain ids hwf]
  · simp

/-- C2, evaluated on the scenario of the spec: `["node1 8080", "node2 8080"]` with domain
`svc.local` gives `[{node1.svc.local,8080},{node2.svc.local,8080}]`. -/
theorem checkconfig_builds_sorted_records_witness :
    (∀ x ∈ [(lit "node1", lit "8080"), (lit "node2", lit "8080")], 32 ∉ x.1 ∧ 32 ∉ x.2) ∧
    (∃ sorted : List (GoString × GoString),
      sorted.Perm [(lit "node1", lit "8080"), (lit "node2", lit "8080")] ∧
      sorted.map specIdentifier =
        sortStrings ([(lit "node1", lit "8080"), (lit "node2", lit "8080")].map specIdentifier) ∧
      (sorted.map specIdentifier).Sorted (fun a b => a ≤ b) ∧
      checkconfigLoop (lit "svc.local")
          (sortStrings ([(lit "node1", lit "8080"), (lit "node2", lit "8080")].map
            specIdentifier)) [] =
        some (sorted.map (specRecord (lit "svc.local"))) ∧
      checkconfig quietEnv
          ([(lit "node1", lit "8080"), (lit "node2", lit "8080")].map specIdentifier)
          (lit "svc.local") (startState none) =
        (some (writeconfig quietEnv (sorted.map (specRecord (lit "svc.local")))
            (startState none)).1,
          (writeconfig quietEnv (sorted.map (specRecord (lit "svc.local")))
            (startState none)).2) ∧
      (sorted.map (specRecord (lit "svc.local"))).length =
        ([(lit "node1", lit "8080"), (lit "node2", lit "8080")].map specIdentifier).length) ∧
    checkconfigLoop (lit "svc.local") (sortStrings [lit "node1 8080", lit "node2 8080"]) [] =
      some [{ Node := lit "node1.svc.local", Port := lit "8080" },
            { Node := lit "node2.svc.local", Port := lit "8080" }] :=
  ⟨by decide,
    checkconfig_builds_sorted_records [(lit "node1", lit "8080"), (lit "node2", lit "8080")]
      (lit "svc.local") quietEnv (startState none) (by decide),
    by decide⟩

/-- C3: two identifier lists that are rearrangements of each other give the same sorted
slice, so `checkconfig` (same domain) and `checkconfigdns` (same port) build the same
record list, hand the same data to the template (whose output is then the same for
every template `t`) and behave identically as a whole; on identifiers without a space
`checkconfig` panics on `et[1]` for both lists alike. -/
theorem discovery_order_insensitive (be1 be2 : List GoString) (domain port : GoString)
    (env : Env) (s : State) (h : be1.Perm be2) :
    checkconfigLoop domain (sortStrings be1) [] = checkconfigLoop domain (sortStrings be2) [] ∧
    checkconfigdnsLoop port (sortStrings be1) [] = checkconfigdnsLoop port (sortStrings be2) [] ∧
    (∀ t : List Backend → Option GoString,
      (checkconfigLoop domain (sortStrings be1) []).bind t =
        (checkconfigLoop domain (sortStrings be2) []).bind t ∧
      t (checkconfigdnsLoop port (sortStrings be1) []) =
        t (checkconfigdnsLoop port (sortStrings be2) [])) ∧
    checkconfig env be1 domain s = checkconfig env be2 domain s ∧
    checkconfigdns env be1 port s = checkconfigdns env be2 port s := by
  have hs : sortStrings be1 = sortStrings be2 := sortStrings_congr h
  simp [checkconfig, checkconfigdns, hs]

/-- C3, evaluated on the scenarios of the spec: `["b:1","a:2"]` against `["a:2","b:1"]`,
and the addresses `["10.0.0.2","10.0.0.1"]` with port `9090`, which give
`[{10.0.0.1,9090},{10.0.0.2,9090}]`. -/
theorem discovery_order_insensitive_witness :
    [lit "b:1", lit "a:2"].Perm [lit "a:2", lit "b:1"] ∧
    (checkconfigLoop (lit "svc.local") (sortStrings [lit "b:1", lit "a:2"]) [] =
        checkconfigLoop (lit "svc.local") (sortStrings [lit "a:2", lit "b:1"]) [] ∧
      checkconfigdnsLoop (lit "9090") (sortStrings [lit "b:1", lit "a:2"]) [] =
        checkconfigdnsLoop (lit "9090") (sortStrings [lit "a:2", lit "b:1"]) [] ∧
      (∀ t : List Backend → Option GoString,
        (checkconfigLoop (lit "svc.local") (sortStrings [lit "b:1", lit "a:2"]) []).bind t =
          (checkconfigLoop (lit "svc.local") (sortStrings [lit "a:2", lit "b:1"]) []).bind t ∧
        t (checkconfigdnsLoop (lit "9090") (sortStrings [lit "b:1", lit "a:2"]) []) =
          t (checkconfigdnsLoop (lit "9090") (sortStrings [lit "a:2", lit "b:1"]) [])) ∧
      checkconfig quietEnv [lit "b:1", lit "a:2"] (lit "svc.local") (startState none) =
        checkconfig quietEnv [lit "a:2", lit "b:1"] (lit "svc.local") (startState none) ∧
      checkconfigdns quietEnv [lit "b:1", lit "a:2"] (lit "9090") (startState none) =
        checkconfigdns quietEnv [lit "a:2", lit "b:1"] (lit "9090") (startState none)) ∧
    checkconfigdnsLoop (lit "9090") (sortStrings [lit "b:1", lit "a:2"]) [] =
      [{ Node := lit "a:2", Port := lit "9090" }, { Node := lit "b:1", Port := lit "9090" }] ∧
    checkconfigdnsLoop (lit "9090") (sortStrings [lit "10.0.0.2", lit "10.0.0.1"]) [] =
      [{ Node := lit "10.0.0.1", Port := lit "9090" },
       { Node := lit "10.0.0.2", Port := lit "9090" }] :=
  ⟨List.Perm.swap _ _ _,
    discovery_order_insensitive [lit "b:1", lit "a:2"] [lit "a:2", lit "b:1"] (lit "svc.local")
      (lit "9090") quietEnv (startState none) (List.Perm.swap _ _ _),
    by decide, by decide⟩

/-- C9, refuted as stated: for the well-formed identifiers `"node-1 80"` and `"node 80"`
and domain `dom`, `checkconfig` builds `[{node.dom,80},{node-1.dom,80}]` (the raw
identifiers are sorted, a space being below `-`), which is not in non-decreasing order
of `Node` (`.` is above `-`). -/
theorem checkconfig_records_not_ordered_by_host :
    (∀ x ∈ [(lit "node-1", lit "80"), (lit "node", lit "80")], 32 ∉ x.1 ∧ 32 ∉ x.2) ∧
    checkconfigLoop (lit "dom")
        (sortStrings ([(lit "node-1", lit "80"), (lit "node", lit "80")].map specIdentifier)) [] =
      some [{ Node := lit "node.dom", Port := lit "80" },
            { Node := lit "node-1.dom", Port := lit "80" }] ∧
    ¬ ([({ Node := lit "node.dom", Port := lit "80" } : Backend),
        { Node := lit "node-1.dom", Port := lit "80" }].map Backend.Node).Sorted
          (fun a b => a ≤ b) := by
  decide

/-- C9, amended: the records `checkconfig` builds from well-formed identifiers are in
non-decreasing order of the raw identifier node ++ " " ++ port they come from (they are
a rearrangement `sorted` of the input pairs, with sorted identifiers, mapped to records);
the records `checkconfigdns` builds are in non-decreasing order of `Node`. -/
theorem records_ordered_by_raw_identifier (ids : List (GoString × GoString))
    (domain port : GoString) (be : List GoString)
    (hwf : ∀ x ∈ ids, 32 ∉ x.1 ∧ 32 ∉ x.2) :
    (∃ sorted : List (GoString × GoString),
      sorted.Perm ids ∧
      sorted.Pairwise (fun a b => specIdentifier a ≤ specIdentifier b) ∧
      checkconfigLoop domain (sortStrings (ids.map specIdentifier)) [] =
        some (sorted.map (specRecord domain))) ∧
    ((checkconfigdnsLoop port (sortStrings be) []).map Backend.Node).Sorted
      (fun a b => a ≤ b) := by
  constructor
  · refine ⟨ids.insertionSort fun a b => a.1 ++ 32 :: a.2 ≤ b.1 ++ 32 :: b.2,
      List.perm_insertionSort _ ids, ?_, checkconfigLoop_specIdentifier domain ids hwf⟩
    have hfun : specIdentifier = fun x => x.1 ++ 32 :: x.2 := funext specIdentifier_eq
    have hsorted := sortStrings_sorted (ids.map specIdentifier)
    rw [hfun, sortStrings_identifiers, ← hfun] at hsorted
    exact List.pairwise_map.1 hsorted
  · have hnode : (fun e : GoString => ({ Node := e, Port := port } : Backend).Node) = id := rfl
    rw [checkconfigdnsLoop_eq]
    simpa [List.map_map, Function.comp_def] using sortStrings_sorted be

/-- C9 amended, on the identifiers of the counterexample and the addresses of the spec. -/
theorem records_ordered_by_raw_identifier_witness :
    (∀ x ∈ [(lit "node-1", lit "80"), (lit "node", lit "80")], 32 ∉ x.1 ∧ 32 ∉ x.2) ∧
    ((∃ sorted : List (GoString × GoString),
      sorted.Perm [(lit "node-1", lit "80"), (lit "node", lit "80")] ∧
      sorted.Pairwise (fun a b => specIdentifier a ≤ specIdentifier b) ∧
      checkconfigLoop (lit "dom")
          (sortStrings ([(lit "node-1", lit "80"), (lit "node", lit "80")].map
            specIdentifier)) [] =
        some (sorted.map (specRecord (lit "dom")))) ∧
    ((checkconfigdnsLoop (lit "9090") (sortStrings [lit "10.0.0.2", lit "10.0.0.1"]) []).map
      Backend.Node).Sorted (fun a b => a ≤ b)) :=
  ⟨by decide,
    records_ordered_by_raw_identifier [(lit "node-1", lit "80"), (lit "node", lit "80")]
      (lit "dom") (lit "9090") [lit "10.0.0.2", lit "10.0.0.1"] (by decide)⟩

/-! ## The supervisor decision -/

/-- C1: the supervisor decision of one tick of `main`. After one call of
`isprocessrunningps("nginx")`, the actions issued for (changed, running) are exactly:
(true, true) `reloadprocess` only; (true, false) `startprocess` only; (false, true)
nothing; (false, false) `startprocess` only. Start and reload are never both issued. -/
theorem supervisor_decision_table (env : Env) (changed : Bool) (s : State) :
    (supervise env changed s).trace =
      s.trace ++ Event.isprocessrunningps (lit "nginx") ::
        (match changed, env.procRunning (lit "nginx") with
          | true, true => [Event.reloadprocess]
          | true, false => [Event.startprocess]
          | false, true => []
          | false, false => [Event.startprocess]) ∧
    ¬ (Event.startprocess ∈ (match changed, env.procRunning (lit "nginx") with
          | true, true => [Event.reloadprocess]
          | true, false => [Event.startprocess]
          | false, true => []
          | false, false => [Event.startprocess]) ∧
       Event.reloadprocess ∈ (match changed, env.procRunning (lit "nginx") with
          | true, true => [Event.reloadprocess]
          | true, false => [Event.startprocess]
          | false, true => []
          | false, false => [Event.startprocess])) := by
  cases changed <;> cases hr : env.procRunning (lit "nginx") <;>
    simp [supervise, isprocessrunningps, startprocess, reloadprocess, State.emit, hr] <;>
    split <;> simp

/-! ## Change detection: `writeconfig` -/

/-- The embedding of MD5 reproduces the test vectors of RFC 1321 for the empty message,
`abc` and `message digest`. -/
theorem fingerprint_test_vectors :
    fingerprint [] = lit "d41d8cd98f00b204e9800998ecf8427e" ∧
    fingerprint (lit "abc") = lit "900150983cd24fb0d6963f7d28e17f72" ∧
    fingerprint (lit "message digest") = lit "f96b697d7cb7938d525a2f31aaf161d0" := by
  decide

theorem writeconfig_of_rendered_none (env : Env) (data : List Backend) (s : State)
    (h : rendered env data = none) :
    (writeconfig env data s).1 = false ∧ (writeconfig env data s).2.conf = s.conf ∧
      (writeconfig env data s).2.mainloop = s.mainloop ∧
      writes (writeconfig env data s).2.trace = writes s.trace := by
  unfold rendered at h
  unfold writeconfig
  cases ht : env.template with
  | none => simp [State.emit, writes, List.filterMap_append]
  | some t =>
    rw [ht] at h
    have htd : t data = none := by simpa using h
    simp [State.emit, writes, List.filterMap_append, htd]

theorem writeconfig_of_fingerprint_eq (env : Env) (data : List Backend) (s : State)
    (tpl : GoString) (h : rendered env data = some tpl)
    (hfp : fingerprint tpl = fingerprint (s.conf.getD [])) :
    (writeconfig env data s).1 = false ∧ (writeconfig env data s).2.conf = s.conf ∧
      (writeconfig env data s).2.mainloop = s.mainloop ∧
      writes (writeconfig env data s).2.trace = writes s.trace := by
  unfold rendered at h
  unfold writeconfig
  cases ht : env.template with
  | none => simp [ht] at h
  | some t =>
    rw [ht] at h
    have htd : t data = some tpl := by simpa using h
    simp [State.emit, writes, List.filterMap_append, htd, hfp]

theorem writeconfig_of_fingerprint_ne (env : Env) (data : List Backend) (s : State)
    (tpl : GoString) (h : rendered env data = some tpl)
    (hfp : fingerprint tpl ≠ fingerprint (s.conf.getD [])) :
    writeconfig env data s =
      (true,
        match env.writeFile tpl with
        | .ok =>
          { s with
            conf := some tpl
            trace := s.trace ++ [.parseTemplate, .executeTemplate data, .readConf,
              .writeConf tpl] }
        | .failed left =>
          { s with
            conf := left
            mainloop := false
            trace := s.trace ++ [.parseTemplate, .executeTemplate data, .readConf,
              .writeConf tpl] }) := by
  unfold rendered at h
  unfold writeconfig
  cases ht : env.template with
  | none => simp [ht] at h
  | some t =>
    rw [ht] at h
    have htd : t data = some tpl := by simpa using h
    cases hw : env.writeFile tpl <;> simp [State.emit, htd, hfp, hw]

/-- C4: idempotence of `writeconfig` over the live file. If the second tick renders the
same bytes as the first (`hsame`), the loop reached the second tick (`hloop`: the run flag
is still set after the first call) and nothing else wrote the live file in between
(`hconf`), then the second call returns false, performs no write and leaves the live file
and the run flag as they were. In particular (last conjunct) whenever the fingerprint of
the rendered bytes equals the fingerprint of the live file content (an unreadable file
counting as empty), `writeconfig` returns false and performs no write. -/
theorem writeconfig_idempotent (env1 env2 : Env) (d1 d2 : List Backend) (s s' : State)
    (hsame : rendered env2 d2 = rendered env1 d1)
    (hloop : (writeconfig env1 d1 s).2.mainloop = true)
    (hconf : s'.conf = (writeconfig env1 d1 s).2.conf) :
    ((writeconfig env2 d2 s').1 = false ∧
      (writeconfig env2 d2 s').2.conf = (writeconfig env1 d1 s).2.conf ∧
      (writeconfig env2 d2 s').2.mainloop = s'.mainloop ∧
      writes (writeconfig env2 d2 s').2.trace = writes s'.trace) ∧
    (∀ (env : Env) (data : List Backend) (st : State) (tpl : GoString),
      rendered env data = some tpl →
      fingerprint tpl = fingerprint (st.conf.getD []) →
      (writeconfig env data st).1 = false ∧ (writeconfig env data st).2.conf = st.conf ∧
        writes (writeconfig env data st).2.trace = writes st.trace) := by
  refine ⟨?_, fun env data st tpl h hfp => ?_⟩
  · rw [← hconf]
    cases hr : rendered env1 d1 with
    | none =>
      rw [hr] at hsame
      exact writeconfig_of_rendered_none env2 d2 s' hsame
    | some tpl =>
      rw [hr] at hsame
      apply writeconfig_of_fingerprint_eq env2 d2 s' tpl hsame
      rw [hconf]
      by_cases hfp : fingerprint tpl = fingerprint (s.conf.getD [])
      · rw [(writeconfig_of_fingerprint_eq env1 d1 s tpl hr hfp).2.1]
        exact hfp
      · rw [writeconfig_of_fingerprint_ne env1 d1 s tpl hr hfp] at hloop ⊢
        cases hw : env1.writeFile tpl with
        | ok => simp
        | failed left => simp [hw] at hloop
  · have h4 := writeconfig_of_fingerprint_eq env data st tpl h hfp
    exact ⟨h4.1, h4.2.1, h4.2.2.2⟩

/-- C4 on two consecutive calls that render `upstream` over an unreadable live file: the
first call installs the bytes, the second returns false and writes nothing. -/
theorem writeconfig_idempotent_witness :
    rendered (constTemplateEnv (lit "upstream")) [] =
      rendered (constTemplateEnv (lit "upstream")) [] ∧
    (writeconfig (constTemplateEnv (lit "upstream")) [] (startState none)).2.mainloop = true ∧
    (writeconfig (constTemplateEnv (lit "upstream")) [] (startState none)).2.conf =
      some (lit "upstream") ∧
    (writeconfig (constTemplateEnv (lit "upstream")) []
      (writeconfig (constTemplateEnv (lit "upstream")) [] (startState none)).2).1 = false ∧
    writes (writeconfig (constTemplateEnv (lit "upstream")) []
      (writeconfig (constTemplateEnv (lit "upstream")) [] (startState none)).2).2.trace =
      writes (writeconfig (constTemplateEnv (lit "upstream")) [] (startState none)).2.trace :=
  have hloop : (writeconfig (constTemplateEnv (lit "upstream")) []
      (startState none)).2.mainloop = true := by decide
  have h := (writeconfig_idempotent (constTemplateEnv (lit "upstream"))
    (constTemplateEnv (lit "upstream")) [] [] (startState none)
    (writeconfig (constTemplateEnv (lit "upstream")) [] (startState none)).2 rfl hloop rfl).1
  ⟨rfl, hloop, by decide, h.1, h.2.2.2⟩

/-- C5, refuted as stated. (1) The comparison is on MD5 fingerprints: with live content
`collisionA` and the different render `collisionB`, which have the same MD5 digest,
`writeconfig` returns false and leaves the live file as it was. (2) When
`ioutil.WriteFile` fails, `writeconfig` returns true and clears the run flag although the
differing render `new` has not replaced the live content `old`. -/
theorem writeconfig_misses_install :
    (collisionB ≠ collisionA ∧
      fingerprint collisionB = lit "79054025255fb1a26e4bc422aef54eb4" ∧
      fingerprint collisionA = lit "79054025255fb1a26e4bc422aef54eb4" ∧
      (writeconfig (constTemplateEnv collisionB) [] (startState (some collisionA))).1 = false ∧
      (writeconfig (constTemplateEnv collisionB) [] (startState (some collisionA))).2.conf =
        some collisionA ∧
      writes (writeconfig (constTemplateEnv collisionB) []
        (startState (some collisionA))).2.trace = []) ∧
    (lit "new" ≠ lit "old" ∧
      writeconfig
          { constTemplateEnv (lit "new") with writeFile := fun _ => .failed (some (lit "old")) }
          [] (startState (some (lit "old"))) =
        (true,
          { conf := some (lit "old"), mainloop := false, status := .running,
            trace := [.parseTemplate, .executeTemplate [], .readConf,
              .writeConf (lit "new")] })) := by
  decide

/-- C5, amended: whenever the MD5 fingerprint of the rendered bytes differs from the
fingerprint of the live file content (an unreadable or missing file counting as empty),
`writeconfig` reports changed = true and issues exactly one write, of the whole rendered
content; when that write succeeds the live file holds exactly the rendered bytes and the
run flag and process status are untouched. -/
theorem writeconfig_installs_on_fingerprint_change (env : Env) (data : List Backend)
    (s : State) (tpl : GoString) (h : rendered env data = some tpl)
    (hfp : fingerprint tpl ≠ fingerprint (s.conf.getD [])) :
    (writeconfig env data s).1 = true ∧
    (writeconfig env data s).2.trace =
      s.trace ++ [.parseTemplate, .executeTemplate data, .readConf, .writeConf tpl] ∧
    (env.writeFile tpl = .ok →
      (writeconfig env data s).2.conf = some tpl ∧
      (writeconfig env data s).2.mainloop = s.mainloop ∧
      (writeconfig env data s).2.status = s.status) := by
  rw [writeconfig_of_fingerprint_ne env data s tpl h hfp]
  cases hw : env.writeFile tpl <;> simp

/-- C5 amended, on live content `old` and render `new`. -/
theorem writeconfig_installs_on_fingerprint_change_witness :
    rendered (constTemplateEnv (lit "new")) [] = some (lit "new") ∧
    fingerprint (lit "new") ≠ fingerprint ((startState (some (lit "old"))).conf.getD []) ∧
    (writeconfig (constTemplateEnv (lit "new")) [] (startState (some (lit "old")))).1 = true ∧
    (writeconfig (constTemplateEnv (lit "new")) [] (startState (some (lit "old")))).2.trace =
      (startState (some (lit "old"))).trace ++
        [.parseTemplate, .executeTemplate [], .readConf, .writeConf (lit "new")] ∧
    (writeconfig (constTemplateEnv (lit "new")) [] (startState (some (lit "old")))).2.conf =
      some (lit "new") :=
  have h := writeconfig_installs_on_fingerprint_change (constTemplateEnv (lit "new")) []
    (startState (some (lit "old"))) (lit "new") rfl (by decide)
  ⟨rfl, by decide, h.1, h.2.1, (h.2.2 rfl).1⟩

/-! ## API discovery: `getstackerviceinfo` -/

theorem getstackerviceinfoLoop_skips_unreachable (config : Config) (env : Env)
    (down rest : List GoString) (s : State)
    (hdown : ∀ h ∈ down, env.httpGet (inspectUrl config h) = none) :
    getstackerviceinfoLoop config env (down ++ rest) s =
      getstackerviceinfoLoop config env rest
        { s with trace := s.trace ++ down.map fun h => .httpGet (inspectUrl config h) } := by
  induction down generalizing s with
  | nil => simp
  | cons h hs ih =>
    have hh := hdown h (List.mem_cons_self _ _)
    have hhs : ∀ x ∈ hs, env.httpGet (inspectUrl config x) = none :=
      fun x hx => hdown x (List.mem_cons_of_mem _ hx)
    simp [getstackerviceinfoLoop, hh, ih _ hhs, State.emit]

/-- C7, refuted as stated: the first responding controller answers with HTTP status 500
and an envelope with `Acode` = 500; `getstackerviceinfo` does not read the body and
returns success with no backends (`m.Aslice` of the zero `Message`, and a nil error). -/
theorem envelope_error_ignored_when_status_not_200 :
    (getstackerviceinfo apiConfig
      { quietEnv with
        httpGet := fun _ =>
          some { status := 500,
                 body := .envelope { Acode := 500, Astring := lit "boom",
                                     Aslice := [lit "node1 8080"] } } }
      (startState none)).1 = .ok [] := by
  decide

/-- C7, amended: when the first controller host that responds (every host before it in
`Docker_hosts` having failed at transport level) answers with HTTP status 200 and a JSON
envelope with `Acode` >= 500, `getstackerviceinfo` returns no backend list and the error
whose message is the decimal code, a space, and `Astring`. -/
theorem envelope_error_on_status_200 (config : Config) (env : Env) (s : State)
    (down : List GoString) (dh : GoString) (rest : List GoString) (resp : HttpResponse)
    (m : Message)
    (hhosts : config.Docker_hosts = down ++ dh :: rest)
    (hdown : ∀ h ∈ down, env.httpGet (inspectUrl config h) = none)
    (hresp : env.httpGet (inspectUrl config dh) = some resp)
    (hstatus : resp.status = 200) (hbody : resp.body = .envelope m)
    (hcode : m.Acode ≥ 500) :
    (getstackerviceinfo config env s).1 = .error (itoa m.Acode ++ lit " " ++ m.Astring) := by
  unfold getstackerviceinfo
  rw [hhosts, getstackerviceinfoLoop_skips_unreachable config env down _ _ hdown]
  simp [getstackerviceinfoLoop, hresp, hstatus, hbody, hcode]

/-- C7 amended, on a controller answering status 200 with code 500 and message `boom`:
the error message is `500 boom`. -/
theorem envelope_error_on_status_200_witness :
    (getstackerviceinfo apiConfig
      { quietEnv with
        httpGet := fun _ =>
          some { status := 200,
                 body := .envelope { Acode := 500, Astring := lit "boom",
                                     Aslice := [lit "node1 8080"] } } }
      (startState none)).1 = .error (itoa 500 ++ lit " " ++ lit "boom") ∧
    itoa 500 ++ lit " " ++ lit "boom" = lit "500 boom" :=
  ⟨envelope_error_on_status_200 apiConfig
      { quietEnv with
        httpGet := fun _ =>
          some { status := 200,
                 body := .envelope { Acode := 500, Astring := lit "boom",
                                     Aslice := [lit "node1 8080"] } } }
      (startState none) [] (lit "manager1") []
      { status := 200,
        body := .envelope { Acode := 500, Astring := lit "boom", Aslice := [lit "node1 8080"] } }
      { Acode := 500, Astring := lit "boom", Aslice := [lit "node1 8080"] }
      rfl (by simp) rfl rfl rfl (by decide),
    by decide⟩

/-! ## Process control -/

/-- C8, refuted as stated. (1) When the reload command cannot be launched,
`reloadprocess` calls `log.Fatal`, which exits the process with status 1. (2) In a tick
in which `ioutil.WriteFile` fails, `writeconfig` clears the run flag and still returns
true, so `reloadprocess` is called with the flag cleared: the reload command is launched
and exits failing, the flag is false afterwards, and the loop stops after this one tick
(`main` returns) instead of going on to a next tick. -/
theorem reloadprocess_launch_failure_is_fatal :
    ((reloadprocess { quietEnv with reload := .launchFailed } (startState none)).status =
        .exited 1 ∧
      (reloadprocess { quietEnv with reload := .launchFailed } (startState none)).status ≠
        .running) ∧
    main (some dnsConfig) (some (lit "old")) 3 (fun _ => writeFailsReloadFailingEnv) =
      { conf := some (lit "old"), mainloop := false, status := .exited 0,
        trace := [.getstacktaskdns, .lookupHost (lit "tasks.web"), .parseTemplate,
          .executeTemplate [{ Node := lit "10.0.0.1", Port := lit "9090" }], .readConf,
          .writeConf (lit "new"), .isprocessrunningps (lit "nginx"), .reloadprocess,
          .sleep 10] } := by
  decide

/-- C8, amended: when the reload command is launched, whatever `cmd.Wait()` reports
(success or a failing exit), and the run flag is true when `reloadprocess` is called,
`reloadprocess` only records the reload: the process does not terminate and the run flag
is left true; the tick in which the change was detected and nginx is running then goes on
to its 10 second sleep, and the loop of `main` runs the next tick. -/
theorem reloadprocess_exit_failure_is_not_fatal (config : Config) (env : Env) (s : State)
    (hlaunch : env.reload ≠ .launchFailed) (hloop : s.mainloop = true)
    (hrun : s.status = .running) (hproc : env.procRunning (lit "nginx") = true) :
    reloadprocess env s = s.emit .reloadprocess ∧
    (reloadprocess env s).status = .running ∧
    (reloadprocess env s).mainloop = true ∧
    superviseAndSleep env true s =
      { s with
        trace := s.trace ++
          [.isprocessrunningps (lit "nginx"), .reloadprocess, .sleep 10] } ∧
    (superviseAndSleep env true s).status = .running ∧
    (superviseAndSleep env true s).mainloop = true ∧
    (∀ (fuel : Nat) (envs : Nat → Env),
      mainLoop config (fuel + 1) envs (superviseAndSleep env true s) =
        mainLoop config fuel (fun n => envs (n + 1))
          (tick config (envs 0) (superviseAndSleep env true s))) := by
  have hre : ∀ st : State, reloadprocess env st = st.emit .reloadprocess := by
    intro st
    unfold reloadprocess
    cases hr : env.reload <;> simp_all
  have hsup : superviseAndSleep env true s =
      { s with
        trace := s.trace ++
          [.isprocessrunningps (lit "nginx"), .reloadprocess, .sleep 10] } := by
    simp [superviseAndSleep, supervise, isprocessrunningps, hproc, hre, State.emit, hrun]
  refine ⟨hre s, ?_, ?_, hsup, ?_, ?_, ?_⟩
  · simp [hre, State.emit, hrun]
  · simp [hre, State.emit, hloop]
  · rw [hsup]; exact hrun
  · rw [hsup]; exact hloop
  · intro fuel envs
    rw [hsup]
    simp [mainLoop, hrun, hloop]

/-- C8 amended, on a run of `main` in DNS mode over the live content `old`: in the first
tick the change is installed and the launched reload command exits failing; the loop
goes on, and the second tick finds nothing to install and nginx running. -/
theorem reloadprocess_exit_failure_is_not_fatal_witness :
    reloadFailingEnv.reload ≠ .launchFailed ∧
    (reloadprocess reloadFailingEnv (startState (some (lit "new")))).status = .running ∧
    (reloadprocess reloadFailingEnv (startState (some (lit "new")))).mainloop = true ∧
    mainLoop dnsConfig 1 (fun _ => reloadFailingEnv)
        (superviseAndSleep reloadFailingEnv true (startState (some (lit "new")))) =
      tick dnsConfig reloadFailingEnv
        (superviseAndSleep reloadFailingEnv true (startState (some (lit "new")))) ∧
    main (some dnsConfig) (some (lit "old")) 2 (fun _ => reloadFailingEnv) =
      { conf := some (lit "new"), mainloop := true, status := .running,
        trace := [.getstacktaskdns, .lookupHost (lit "tasks.web"), .parseTemplate,
          .executeTemplate [{ Node := lit "10.0.0.1", Port := lit "9090" }], .readConf,
          .writeConf (lit "new"), .isprocessrunningps (lit "nginx"), .reloadprocess,
          .sleep 10,
          .getstacktaskdns, .lookupHost (lit "tasks.web"), .parseTemplate,
          .executeTemplate [{ Node := lit "10.0.0.1", Port := lit "9090" }], .readConf,
          .isprocessrunningps (lit "nginx"), .sleep 10] } :=
  have h := reloadprocess_exit_failure_is_not_fatal dnsConfig reloadFailingEnv
    (startState (some (lit "new"))) (by decide) rfl rfl rfl
  ⟨by decide, h.2.1, h.2.2.1, h.2.2.2.2.2.2 0 (fun _ => reloadFailingEnv), by decide⟩

/-! ## Traces of the parts of a tick -/

theorem extends_refl (p : Event → Bool) (s : State) : Extends p s s :=
  ⟨[], by simp, by simp⟩

theorem extends_trans {p : Event → Bool} {s t u : State} (h1 : Extends p s t)
    (h2 : Extends p t u) : Extends p s u := by
  obtain ⟨e1, ht, hp1⟩ := h1
  obtain ⟨e2, hu, hp2⟩ := h2
  refine ⟨e1 ++ e2, by rw [hu, ht, List.append_assoc], ?_⟩
  intro e he
  rcases List.mem_append.1 he with h | h
  · exact hp1 e h
  · exact hp2 e h

theorem extends_emit {p : Event → Bool} (s : State) (e : Event) (h : p e = true) :
    Extends p s (s.emit e) :=
  ⟨[e], rfl, by simpa using h⟩

theorem extends_of_trace_eq {p : Event → Bool} {s t : State} (h : t.trace = s.trace) :
    Extends p s t :=
  ⟨[], by simp [h], by simp⟩

theorem performs_trans {p : Event → Bool} {s t u : State} (h1 : Performs p s t)
    (h2 : Performs p t u) : Performs p s u :=
  ⟨h2.1.trans h1.1, h2.2.1.trans h1.2.1, h2.2.2.1.trans h1.2.2.1,
    extends_trans h1.2.2.2 h2.2.2.2⟩

theorem performs_emit {p : Event → Bool} (s : State) (e : Event) (h : p e = true) :
    Performs p s (s.emit e) :=
  ⟨rfl, rfl, rfl, extends_emit s e h⟩

theorem getstackerviceinfoLoop_performs (config : Config) (env : Env) (hosts : List GoString)
    (s : State) :
    Performs Event.isHttpGet s (getstackerviceinfoLoop config env hosts s).2 := by
  induction hosts generalizing s with
  | nil => exact ⟨rfl, rfl, rfl, extends_refl _ _⟩
  | cons dh rest ih =>
    have hemit : Performs Event.isHttpGet s (s.emit (.httpGet (inspectUrl config dh))) :=
      performs_emit s _ rfl
    unfold getstackerviceinfoLoop
    cases hget : env.httpGet (inspectUrl config dh) with
    | none => exact performs_trans hemit (ih _)
    | some resp =>
      simp only []
      split
      · split <;> try exact hemit
        split <;> exact hemit
      · exact hemit

theorem getstackerviceinfo_performs (config : Config) (env : Env) (s : State) :
    s.conf = (getstackerviceinfo config env s).2.conf ∧
    s.mainloop = (getstackerviceinfo config env s).2.mainloop ∧
    s.status = (getstackerviceinfo config env s).2.status ∧
    ∃ evs : List Event,
      (getstackerviceinfo config env s).2.trace = s.trace ++ Event.getstackerviceinfo :: evs ∧
      ∀ e ∈ evs, e.isHttpGet = true := by
  have h := getstackerviceinfoLoop_performs config env config.Docker_hosts
    (s.emit .getstackerviceinfo)
  obtain ⟨hc, hm, hst, evs, htr, hp⟩ := h
  refine ⟨hc.symm, hm.symm, hst.symm, evs, ?_, hp⟩
  unfold getstackerviceinfo
  rw [htr]
  simp [State.emit]

theorem writeconfig_extends (env : Env) (data : List Backend) (s : State) :
    (writeconfig env data s).2.status = s.status ∧
    Extends Event.isLocal s (writeconfig env data s).2 := by
  cases ht : env.template with
  | none =>
    exact ⟨by simp [writeconfig, ht, State.emit],
      [.parseTemplate], by simp [writeconfig, ht, State.emit], by simp [Event.isLocal]⟩
  | some t =>
    cases htd : t data with
    | none =>
      exact ⟨by simp [writeconfig, ht, htd, State.emit],
        [.parseTemplate, .executeTemplate data], by simp [writeconfig, ht, htd, State.emit],
        by simp [Event.isLocal]⟩
    | some tpl =>
      by_cases hfp : fingerprint tpl = fingerprint (s.conf.getD [])
      · exact ⟨by simp [writeconfig, ht, htd, hfp, State.emit],
          [.parseTemplate, .executeTemplate data, .readConf],
          by simp [writeconfig, ht, htd, hfp, State.emit], by simp [Event.isLocal]⟩
      · cases hw : env.writeFile tpl <;>
          exact ⟨by simp [writeconfig, ht, htd, hfp, hw, State.emit],
            [.parseTemplate, .executeTemplate data, .readConf, .writeConf tpl],
            by simp [writeconfig, ht, htd, hfp, hw, State.emit], by simp [Event.isLocal]⟩

theorem checkconfig_extends (env : Env) (be : List GoString) (domain : GoString) (s : State) :
    Extends Event.isLocal s (checkconfig env be domain s).2 := by
  unfold checkconfig
  cases checkconfigLoop domain (sortStrings be) [] with
  | none => exact extends_of_trace_eq rfl
  | some data => exact (writeconfig_extends env data s).2

theorem checkconfigdns_extends (env : Env) (be : List GoString) (port : GoString)
    (s : State) : Extends Event.isLocal s (checkconfigdns env be port s).2 :=
  (writeconfig_extends env _ s).2

theorem supervise_extends (env : Env) (changed : Bool) (s : State) :
    Extends Event.isLocal s (supervise env changed s) := by
  cases changed <;> cases hr : env.procRunning (lit "nginx")
  · exact ⟨[.isprocessrunningps (lit "nginx"), .startprocess],
      by simp [supervise, isprocessrunningps, startprocess, State.emit, hr]; split <;> simp,
      by simp [Event.isLocal]⟩
  · exact ⟨[.isprocessrunningps (lit "nginx")],
      by simp [supervise, isprocessrunningps, State.emit, hr], by simp [Event.isLocal]⟩
  · exact ⟨[.isprocessrunningps (lit "nginx"), .startprocess],
      by simp [supervise, isprocessrunningps, startprocess, State.emit, hr]; split <;> simp,
      by simp [Event.isLocal]⟩
  · exact ⟨[.isprocessrunningps (lit "nginx"), .reloadprocess],
      by simp [supervise, isprocessrunningps, reloadprocess, State.emit, hr]; split <;> simp,
      by simp [Event.isLocal]⟩

theorem superviseAndSleep_extends (env : Env) (changed : Bool) (s : State) :
    Extends Event.isLocal s (superviseAndSleep env changed s) := by
  unfold superviseAndSleep
  split
  · exact extends_trans (supervise_extends env changed s) (extends_emit _ _ rfl)
  · exact supervise_extends env changed s

theorem mainLoop_of_stopped (config : Config) (fuel : Nat) (envs : Nat → Env) (s : State)
    (h : s.status ≠ .running) : mainLoop config fuel envs s = s := by
  cases fuel with
  | zero => rfl
  | succ n => simp only [mainLoop, if_neg h]

/-! ## One tick and the loop of `main` -/

theorem getstacktaskdns_cases (config : Config) (env : Env) (s : State) :
    ((getstacktaskdns config env s).1 = none ∧
      (getstacktaskdns config env s).2.trace = s.trace ++ [Event.getstacktaskdns]) ∨
    ((getstacktaskdns config env s).1 ≠ none ∧
      (getstacktaskdns config env s).2 =
        { s with
          trace := s.trace ++
            [Event.getstacktaskdns, .lookupHost config.Stack_service_task_dns_name] }) := by
  unfold getstacktaskdns
  by_cases hport : config.Stack_service_port = []
  · left
    simp [hport, State.emit]
  · right
    cases hl : env.lookupHost config.Stack_service_task_dns_name <;>
      simp [hport, hl, State.emit]

theorem tick_api_failure (config : Config) (env : Env) (s : State) (err : GoString)
    (hapi : config.Ingress_service_name ≠ []) (hdns : config.Stack_service_task_dns_name = [])
    (herr : (getstackerviceinfo config env s).1 = .error err) :
    tick config env s = (getstackerviceinfo config env s).2.emit (.sleep 5) := by
  have hpair : getstackerviceinfo config env s =
      (.error err, (getstackerviceinfo config env s).2) := Prod.ext herr rfl
  unfold tick
  rw [hpair]
  simp [hapi, hdns]

theorem tick_dns_failure (config : Config) (env : Env) (s : State) (err : GoString)
    (hapi : config.Ingress_service_name = []) (hdns : config.Stack_service_task_dns_name ≠ [])
    (herr : (getstacktaskdns config env s).1 = some (.error err)) :
    tick config env s = (getstacktaskdns config env s).2.emit (.sleep 5) := by
  have hpair : getstacktaskdns config env s =
      (some (.error err), (getstacktaskdns config env s).2) := Prod.ext herr rfl
  unfold tick
  rw [hpair]
  simp [hapi, hdns]

/-- C6: a tick of `main` (run flag set, process alive) in which the active discovery
function returns an error leaves the live file, the run flag and the process status
as they were; it performs only discovery actions followed by the 5 second sleep (no
template, no read or write of the live file, no probe, start or reload); and the loop
then runs the next tick. -/
theorem discovery_failure_isolated (config : Config) (env : Env) (s : State) (err : GoString)
    (hloop : s.mainloop = true) (hrun : s.status = .running)
    (hfail :
      (config.Ingress_service_name ≠ [] ∧ config.Stack_service_task_dns_name = [] ∧
        (getstackerviceinfo config env s).1 = .error err) ∨
      (config.Ingress_service_name = [] ∧ config.Stack_service_task_dns_name ≠ [] ∧
        (getstacktaskdns config env s).1 = some (.error err))) :
    (tick config env s).conf = s.conf ∧
    (tick config env s).mainloop = true ∧
    (tick config env s).status = .running ∧
    (∃ evs : List Event,
      (tick config env s).trace = s.trace ++ evs ++ [.sleep 5] ∧
      ∀ e ∈ evs, e.isDiscovery = true) ∧
    (∀ (fuel : Nat) (envs : Nat → Env),
      mainLoop config (fuel + 1) envs (tick config env s) =
        mainLoop config fuel (fun n => envs (n + 1))
          (tick config (envs 0) (tick config env s))) := by
  have key : ∃ s1 : State, tick config env s = s1.emit (.sleep 5) ∧
      Performs Event.isDiscovery s s1 := by
    rcases hfail with ⟨hapi, hdns, herr⟩ | ⟨hapi, hdns, herr⟩
    · refine ⟨_, tick_api_failure config env s err hapi hdns herr, ?_⟩
      obtain ⟨hc, hm, hst, evs, htr, hp⟩ := getstackerviceinfo_performs config env s
      refine ⟨hc.symm, hm.symm, hst.symm, _, htr, ?_⟩
      intro e he
      rcases List.mem_cons.1 he with h | h
      · rw [h]; rfl
      · have := hp e h
        cases e <;> simp_all [Event.isHttpGet, Event.isDiscovery, Event.isApi]
    · refine ⟨_, tick_dns_failure config env s err hapi hdns herr, ?_⟩
      rcases getstacktaskdns_cases config env s with ⟨hnone, _⟩ | ⟨_, hst⟩
      · rw [herr] at hnone
        cases hnone
      · rw [hst]
        exact ⟨rfl, rfl, rfl, _, rfl, by simp [Event.isDiscovery, Event.isDns]⟩
  obtain ⟨s1, htick, hc, hm, hst, evs, htr, hp⟩ := key
  have hml : (tick config env s).mainloop = true := by
    rw [htick]; simp [State.emit, hm, hloop]
  have hstat : (tick config env s).status = .running := by
    rw [htick]; simp [State.emit, hst, hrun]
  refine ⟨by rw [htick]; simp [State.emit, hc], hml, hstat,
    ⟨evs, by rw [htick]; simp [State.emit, htr], hp⟩, ?_⟩
  intro fuel envs
  simp [mainLoop, hml, hstat]

/-- C6 in API mode with no reachable controller and in DNS mode with a failing lookup,
over the live content `old`. -/
theorem discovery_failure_isolated_witness :
    (getstackerviceinfo apiConfig quietEnv (startState (some (lit "old")))).1 =
      .error (lit "Cannot reach any docker host") ∧
    (tick apiConfig quietEnv (startState (some (lit "old")))).conf = some (lit "old") ∧
    (tick apiConfig quietEnv (startState (some (lit "old")))).mainloop = true ∧
    (tick apiConfig quietEnv (startState (some (lit "old")))).trace =
      [.getstackerviceinfo, .httpGet (inspectUrl apiConfig (lit "manager1")), .sleep 5] ∧
    (getstacktaskdns dnsConfig quietEnv (startState (some (lit "old")))).1 =
      some (.error []) ∧
    (tick dnsConfig quietEnv (startState (some (lit "old")))).conf = some (lit "old") ∧
    (tick dnsConfig quietEnv (startState (some (lit "old")))).status = .running ∧
    (tick dnsConfig quietEnv (startState (some (lit "old")))).trace =
      [.getstacktaskdns, .lookupHost (lit "tasks.web"), .sleep 5] :=
  have hapi := discovery_failure_isolated apiConfig quietEnv (startState (some (lit "old")))
    (lit "Cannot reach any docker host") rfl rfl
    (Or.inl ⟨by decide, by decide, by decide⟩)
  have hdns := discovery_failure_isolated dnsConfig quietEnv (startState (some (lit "old")))
    [] rfl rfl (Or.inr ⟨by decide, by decide, by decide⟩)
  ⟨by decide, hapi.1, hapi.2.1, by decide, by decide, hdns.1, hdns.2.2.1, by decide⟩

theorem tick_invalid (config : Config) (env : Env) (s : State)
    (h : (config.Ingress_service_name ≠ [] ∧ config.Stack_service_task_dns_name ≠ []) ∨
      (config.Ingress_service_name = [] ∧ config.Stack_service_task_dns_name = [])) :
    tick config env s = { s with status := .panicked } := by
  unfold tick
  rcases h with ⟨hapi, hdns⟩ | ⟨hapi, hdns⟩ <;> simp [hapi, hdns]

theorem tick_api_after_discovery (config : Config) (env : Env) (s : State)
    (hapi : config.Ingress_service_name ≠ []) (hdns : config.Stack_service_task_dns_name = []) :
    Extends Event.isLocal (getstackerviceinfo config env s).2 (tick config env s) := by
  cases hres : (getstackerviceinfo config env s).1 with
  | error err =>
    rw [tick_api_failure config env s err hapi hdns hres]
    exact extends_emit _ _ rfl
  | ok backends =>
    have hpair : getstackerviceinfo config env s =
        (.ok backends, (getstackerviceinfo config env s).2) := Prod.ext hres rfl
    have hcc := checkconfig_extends env backends config.Docker_host_dns_domain
      (getstackerviceinfo config env s).2
    cases hch : (checkconfig env backends config.Docker_host_dns_domain
        (getstackerviceinfo config env s).2).1 with
    | none =>
      have hp2 : checkconfig env backends config.Docker_host_dns_domain
          (getstackerviceinfo config env s).2 =
          (none, (checkconfig env backends config.Docker_host_dns_domain
            (getstackerviceinfo config env s).2).2) := Prod.ext hch rfl
      have ht : tick config env s = (checkconfig env backends config.Docker_host_dns_domain
          (getstackerviceinfo config env s).2).2 := by
        unfold tick
        rw [if_neg (by simp [hdns]), if_pos hapi, hpair]
        simp only []
        rw [hp2]
      rw [ht]
      exact hcc
    | some changed =>
      have hp2 : checkconfig env backends config.Docker_host_dns_domain
          (getstackerviceinfo config env s).2 =
          (some changed, (checkconfig env backends config.Docker_host_dns_domain
            (getstackerviceinfo config env s).2).2) := Prod.ext hch rfl
      have ht : tick config env s = superviseAndSleep env changed
          (checkconfig env backends config.Docker_host_dns_domain
            (getstackerviceinfo config env s).2).2 := by
        unfold tick
        rw [if_neg (by simp [hdns]), if_pos hapi, hpair]
        simp only []
        rw [hp2]
      rw [ht]
      exact extends_trans hcc (superviseAndSleep_extends env changed _)

theorem tick_api_trace (config : Config) (env : Env) (s : State)
    (hapi : config.Ingress_service_name ≠ []) (hdns : config.Stack_service_task_dns_name = []) :
    ∃ evs : List Event,
      (tick config env s).trace = s.trace ++ Event.getstackerviceinfo :: evs ∧
      ∀ e ∈ evs, e ≠ Event.getstackerviceinfo ∧ e.isDns = false := by
  obtain ⟨_, _, _, evs1, htr1, hp1⟩ := getstackerviceinfo_performs config env s
  obtain ⟨evs2, htr2, hp2⟩ := tick_api_after_discovery config env s hapi hdns
  refine ⟨evs1 ++ evs2, by rw [htr2, htr1]; simp, ?_⟩
  intro e he
  rcases List.mem_append.1 he with h | h
  · have := hp1 e h
    cases e <;> simp_all [Event.isHttpGet, Event.isDns]
  · have := hp2 e h
    cases e <;> simp_all [Event.isLocal, Event.isDns]

theorem tick_dns_after_discovery (config : Config) (env : Env) (s : State)
    (hapi : config.Ingress_service_name = []) (hdns : config.Stack_service_task_dns_name ≠ []) :
    Extends Event.isLocal (getstacktaskdns config env s).2 (tick config env s) := by
  cases hres : (getstacktaskdns config env s).1 with
  | none =>
    have hpair : getstacktaskdns config env s = (none, (getstacktaskdns config env s).2) :=
      Prod.ext hres rfl
    have ht : tick config env s = (getstacktaskdns config env s).2 := by
      unfold tick
      rw [hpair]
      simp [hapi, hdns]
    rw [ht]
    exact extends_refl _ _
  | some r =>
    cases r with
    | error err =>
      rw [tick_dns_failure config env s err hapi hdns hres]
      exact extends_emit _ _ rfl
    | ok backends =>
      have hpair : getstacktaskdns config env s =
          (some (.ok backends), (getstacktaskdns config env s).2) := Prod.ext hres rfl
      have ht : tick config env s = superviseAndSleep env
          (checkconfigdns env backends config.Stack_service_port
            (getstacktaskdns config env s).2).1
          (checkconfigdns env backends config.Stack_service_port
            (getstacktaskdns config env s).2).2 := by
        unfold tick
        rw [hpair]
        simp [hapi, hdns]
      rw [ht]
      exact extends_trans (checkconfigdns_extends env backends _ _)
        (superviseAndSleep_extends env _ _)

theorem tick_dns_trace (config : Config) (env : Env) (s : State)
    (hapi : config.Ingress_service_name = []) (hdns : config.Stack_service_task_dns_name ≠ []) :
    ∃ evs : List Event,
      (tick config env s).trace = s.trace ++ Event.getstacktaskdns :: evs ∧
      ∀ e ∈ evs, e ≠ Event.getstacktaskdns ∧ e.isApi = false := by
  obtain ⟨evs2, htr2, hp2⟩ := tick_dns_after_discovery config env s hapi hdns
  have hloc : ∀ e ∈ evs2, e ≠ Event.getstacktaskdns ∧ e.isApi = false := by
    intro e he
    have := hp2 e he
    cases e <;> simp_all [Event.isLocal, Event.isApi]
  rcases getstacktaskdns_cases config env s with ⟨_, htr1⟩ | ⟨_, hst⟩
  · exact ⟨evs2, by rw [htr2, htr1]; simp, hloc⟩
  · refine ⟨.lookupHost config.Stack_service_task_dns_name :: evs2,
      by rw [htr2, hst]; simp, ?_⟩
    intro e he
    rcases List.mem_cons.1 he with h | h
    · rw [h]; simp [Event.isApi]
    · exact hloc e h

theorem mainLoop_extends (config : Config) (p : Event → Bool)
    (htick : ∀ (env : Env) (s : State), Extends p s (tick config env s))
    (fuel : Nat) (envs : Nat → Env) (s : State) :
    Extends p s (mainLoop config fuel envs s) := by
  induction fuel generalizing envs s with
  | zero => exact extends_refl _ _
  | succ n ih =>
    unfold mainLoop
    split
    · split
      · exact extends_trans (htick (envs 0) s) (ih _ _)
      · exact extends_of_trace_eq rfl
    · exact extends_refl _ _

/-- C10: mutual exclusion of the discovery strategies. When `Ingress_service_name` and
`Stack_service_task_dns_name` are both non-empty or both empty, `main` panics in its
first iteration before any action at all (empty trace, live file untouched). When only
`Ingress_service_name` is set, every tick calls `getstackerviceinfo` exactly once, first,
and performs no action of the DNS discovery, and no run of `main` ever does; when only
`Stack_service_task_dns_name` is set, the same holds with `getstacktaskdns` and the API
discovery exchanged. -/
theorem discovery_strategies_exclusive (config : Config) :
    ((config.Ingress_service_name ≠ [] ∧ config.Stack_service_task_dns_name ≠ []) ∨
        (config.Ingress_service_name = [] ∧ config.Stack_service_task_dns_name = []) →
      ∀ (conf0 : Option GoString) (fuel : Nat) (envs : Nat → Env),
        main (some config) conf0 (fuel + 1) envs =
          { conf := conf0, mainloop := true, status := .panicked, trace := [] }) ∧
    (config.Ingress_service_name ≠ [] ∧ config.Stack_service_task_dns_name = [] →
      (∀ (env : Env) (s : State), ∃ evs : List Event,
        (tick config env s).trace = s.trace ++ Event.getstackerviceinfo :: evs ∧
        ∀ e ∈ evs, e ≠ Event.getstackerviceinfo ∧ e.isDns = false) ∧
      (∀ (conf0 : Option GoString) (fuel : Nat) (envs : Nat → Env),
        ∀ e ∈ (main (some config) conf0 fuel envs).trace, e.isDns = false)) ∧
    (config.Ingress_service_name = [] ∧ config.Stack_service_task_dns_name ≠ [] →
      (∀ (env : Env) (s : State), ∃ evs : List Event,
        (tick config env s).trace = s.trace ++ Event.getstacktaskdns :: evs ∧
        ∀ e ∈ evs, e ≠ Event.getstacktaskdns ∧ e.isApi = false) ∧
      (∀ (conf0 : Option GoString) (fuel : Nat) (envs : Nat → Env),
        ∀ e ∈ (main (some config) conf0 fuel envs).trace, e.isApi = false)) := by
  refine ⟨fun h conf0 fuel envs => ?_, fun h => ⟨fun env s => ?_, fun conf0 fuel envs => ?_⟩,
    fun h => ⟨fun env s => ?_, fun conf0 fuel envs => ?_⟩⟩
  · simp only [main, mainLoop, tick_invalid config _ _ h]
    rw [mainLoop_of_stopped _ _ _ _ (by simp)]
    simp
  · exact tick_api_trace config env s h.1 h.2
  · have hext := mainLoop_extends config (fun e => !e.isDns) (fun env s => by
      obtain ⟨evs, htr, hp⟩ := tick_api_trace config env s h.1 h.2
      refine ⟨_, htr, fun e he => ?_⟩
      rcases List.mem_cons.1 he with h1 | h1
      · rw [h1]; rfl
      · simp [(hp e h1).2]) fuel envs
      { conf := conf0, mainloop := true, status := .running, trace := [] }
    obtain ⟨evs, htr, hp⟩ := hext
    intro e he
    simp only [main] at he
    rw [htr] at he
    simpa using hp e (by simpa using he)
  · exact tick_dns_trace config env s h.1 h.2
  · have hext := mainLoop_extends config (fun e => !e.isApi) (fun env s => by
      obtain ⟨evs, htr, hp⟩ := tick_dns_trace config env s h.1 h.2
      refine ⟨_, htr, fun e he => ?_⟩
      rcases List.mem_cons.1 he with h1 | h1
      · rw [h1]; rfl
      · simp [(hp e h1).2]) fuel envs
      { conf := conf0, mainloop := true, status := .running, trace := [] }
    obtain ⟨evs, htr, hp⟩ := hext
    intro e he
    simp only [main] at he
    rw [htr] at he
    simpa using hp e (by simpa using he)

/-- C10 on a configuration with both strategies, one with none, one in API mode and one
in DNS mode. -/
theorem discovery_strategies_exclusive_witness :
    main (some bothConfig) (some (lit "old")) 3 (fun _ => quietEnv) =
      { conf := some (lit "old"), mainloop := true, status := .panicked, trace := [] } ∧
    main (some neitherConfig) (some (lit "old")) 3 (fun _ => quietEnv) =
      { conf := some (lit "old"), mainloop := true, status := .panicked, trace := [] } ∧
    (∀ e ∈ (main (some apiConfig) none 3 (fun _ => quietEnv)).trace, e.isDns = false) ∧
    (∀ e ∈ (main (some dnsConfig) none 3 (fun _ => quietEnv)).trace, e.isApi = false) ∧
    (main (some apiConfig) none 2 (fun _ => quietEnv)).trace =
      [.getstackerviceinfo, .httpGet (inspectUrl apiConfig (lit "manager1")), .sleep 5,
       .getstackerviceinfo, .httpGet (inspectUrl apiConfig (lit "manager1")), .sleep 5] :=
  ⟨(discovery_strategies_exclusive bothConfig).1 (Or.inl ⟨by decide, by decide⟩) _ 2 _,
    (discovery_strategies_exclusive neitherConfig).1 (Or.inr ⟨by decide, by decide⟩) _ 2 _,
    ((discovery_strategies_exclusive apiConfig).2.1 ⟨by decide, by decide⟩).2 _ 3 _,
    ((discovery_strategies_exclusive dnsConfig).2.2 ⟨by decide, by decide⟩).2 _ 3 _,
    by decide⟩

end BorderController
